import Mathlib

/-!
Verification of the eyeqwst gateway client and connection supervisor.

The development shallowly embeds the wire codec
(crates/quaddlecl/src/client/gateway.rs, model/*.rs), the gateway channel
(Gateway::connect / identify / poll_next) and the session supervisor
(src/gateway.rs, gateway_service / Connection::send).  Asynchronous
interaction with the network and the command queue is modelled by an
explicit oracle: each suspension point of the Rust code consumes one
stimulus describing what the environment produced there.
-/

namespace Eyeqwst

/-- JSON values, the parsed form of a text frame.  All numbers in the
protocol are u64, modelled as Nat. -/
inductive Json where
  | null : Json
  | bool (b : Bool) : Json
  | num (n : Nat) : Json
  | str (s : String) : Json
  | arr (elems : List Json) : Json
  | obj (fields : List (String × Json)) : Json

/-- Field lookup in a JSON object, first occurrence wins
(serde reads fields in order and errors on duplicates; the frames in this
protocol never contain duplicates, so first-wins is equivalent). -/
def jLookup : List (String × Json) → String → Option Json
  | [], _ => none
  | (k, v) :: rest, key => if k = key then some v else jLookup rest key

/-- model/user.rs: newtype over u64, serde(transparent). -/
structure UserId where
  val : Nat
deriving DecidableEq

/-- model/channel.rs: newtype over u64, serde(transparent). -/
structure ChannelId where
  val : Nat
deriving DecidableEq

/-- model/message.rs: newtype over u64, serde(transparent). -/
structure MessageId where
  val : Nat
deriving DecidableEq

/-- model/user.rs: User { id, name }. -/
structure User where
  id : UserId
  name : String
deriving DecidableEq

/-- model/message.rs: Message { id, author, channel, content }. -/
structure Message where
  id : MessageId
  author : User
  channel : ChannelId
  content : String
deriving DecidableEq

/-- client/gateway.rs: ClientGatewayMessage, serde tag "op", snake_case. -/
inductive ClientGatewayMessage where
  | Identify (token : String)
  | Subscribe (channel_id : ChannelId)
deriving DecidableEq

/-- client/gateway.rs: GatewayEvent, serde tag "event", snake_case. -/
inductive GatewayEvent where
  | Ready (session_id : String) (user : User)
  | Error (reason : String)
  | MessageCreate (message : Message)
deriving DecidableEq

/-- Serialization of User (derived serde impl: fields in declaration
order). -/
def encodeUser (u : User) : Json :=
  .obj [("id", .num u.id.val), ("name", .str u.name)]

/-- Serialization of Message (derived serde impl). -/
def encodeMessage (m : Message) : Json :=
  .obj [("id", .num m.id.val), ("author", encodeUser m.author),
        ("channel", .num m.channel.val), ("content", .str m.content)]

/-- Serialization of ClientGatewayMessage: internally tagged with "op",
snake_case variant names, ChannelId transparent as a bare u64 number. -/
def encodeClientGatewayMessage : ClientGatewayMessage → Json
  | .Identify token =>
      .obj [("op", .str "identify"), ("token", .str token)]
  | .Subscribe channel_id =>
      .obj [("op", .str "subscribe"), ("channel_id", .num channel_id.val)]

/-- Serialization of GatewayEvent: internally tagged with "event",
snake_case variant names. -/
def encodeGatewayEvent : GatewayEvent → Json
  | .Ready session_id user =>
      .obj [("event", .str "ready"), ("session_id", .str session_id),
            ("user", encodeUser user)]
  | .Error reason =>
      .obj [("event", .str "error"), ("reason", .str reason)]
  | .MessageCreate message =>
      .obj [("event", .str "message_create"), ("message", encodeMessage message)]

/-- Deserialization of User: required fields id and name, unknown fields
ignored (serde default). -/
def decodeUser : Json → Option User
  | .obj fields =>
      match jLookup fields "id", jLookup fields "name" with
      | some (.num i), some (.str n) => some ⟨⟨i⟩, n⟩
      | _, _ => none
  | _ => none

/-- Deserialization of Message: required fields id, author, channel,
content. -/
def decodeMessage : Json → Option Message
  | .obj fields =>
      match jLookup fields "id", jLookup fields "author",
            jLookup fields "channel", jLookup fields "content" with
      | some (.num i), some a, some (.num c), some (.str txt) =>
          match decodeUser a with
          | some u => some ⟨⟨i⟩, u, ⟨c⟩, txt⟩
          | none => none
      | _, _, _, _ => none
  | _ => none

/-- Deserialization of ClientGatewayMessage: dispatch on the "op"
discriminator. -/
def decodeClientGatewayMessage (j : Json) : Option ClientGatewayMessage :=
  match j with
  | .obj fields =>
      match jLookup fields "op" with
      | some (.str "identify") =>
          match jLookup fields "token" with
          | some (.str t) => some (.Identify t)
          | _ => none
      | some (.str "subscribe") =>
          match jLookup fields "channel_id" with
          | some (.num c) => some (.Subscribe ⟨c⟩)
          | _ => none
      | _ => none
  | _ => none

/-- Deserialization of GatewayEvent: dispatch on the "event"
discriminator with snake_case tags. -/
def decodeGatewayEvent (j : Json) : Option GatewayEvent :=
  match j with
  | .obj fields =>
      match jLookup fields "event" with
      | some (.str "ready") =>
          match jLookup fields "session_id", jLookup fields "user" with
          | some (.str sid), some uj =>
              match decodeUser uj with
              | some u => some (.Ready sid u)
              | none => none
          | _, _ => none
      | some (.str "error") =>
          match jLookup fields "reason" with
          | some (.str r) => some (.Error r)
          | _ => none
      | some (.str "message_create") =>
          match jLookup fields "message" with
          | some mj =>
              match decodeMessage mj with
              | some m => some (.MessageCreate m)
              | none => none
          | _ => none
      | _ => none
  | _ => none

/-!
Gateway channel (client/gateway.rs).  The url crate is modelled by its
observable interface: path_segments_mut() succeeds exactly on hierarchical
URLs (fails on cannot-be-a-base URLs) and push appends one path segment.
The websocket is modelled by the sequence of items its stream will yield
before the peer closes the socket.
-/

/-- A URL as the url crate presents it to this code: whether it is a
cannot-be-a-base URL (path_segments_mut fails) and its path segments. -/
structure Url where
  cannot_be_a_base : Bool
  segments : List String
deriving DecidableEq

/-- PathSegmentsMut::push: append one segment to the path. -/
def Url.push (u : Url) (s : String) : Url :=
  { u with segments := u.segments ++ [s] }

/-- client/gateway.rs: the Error enum. Websocket carries the underlying
reqwest_websocket error, abstracted here. -/
inductive Error where
  | Websocket
  | InvalidUrl (url : Url)
  | Serialization
  | UnexpectedBinaryMessage
  | GatewayError (reason : String)
  | UnexpectedEvent (ev : GatewayEvent)
  | UnexpectedSocketClose
deriving DecidableEq

/-- One item produced by the underlying websocket stream: a binary frame,
a text frame that parses to the given JSON, a text frame that is not valid
JSON, or a transport error reported by the stream. -/
inductive WsIncoming where
  | binary
  | text (j : Json)
  | malformed
  | wsError

/-- client/gateway.rs: struct Gateway { ws, closed }.  The socket is
represented by the items its stream will yield before the peer close. -/
structure Gateway where
  closed : Bool
  incoming : List WsIncoming

/-- The observable network action of Gateway::connect: one HTTP upgrade
request with its target URL and user-agent header. -/
structure UpgradeRequest where
  url : Url
  user_agent : String

/-- Environment oracle for one connect attempt: either the upgrade fails
with a websocket error, or it succeeds and the socket will yield the given
items. -/
inductive NetOutcome where
  | fail
  | ok (frames : List WsIncoming)

/-- Gateway::connect (client/gateway.rs lines 60-79): if
path_segments_mut fails (cannot-be-a-base URL) return InvalidUrl without
touching the network; otherwise push the segment "app" and issue one
upgrade request with the user-agent header.  Returns the list of issued
upgrade requests together with the result.  NOTE: the source constructs
the Gateway with closed: true (line 78). -/
def Gateway.connect (quaddle_url : Url) (user_agent : String) (net : NetOutcome) :
    List UpgradeRequest × Except Error Gateway :=
  if quaddle_url.cannot_be_a_base then
    ([], .error (.InvalidUrl quaddle_url))
  else
    let target := quaddle_url.push "app"
    match net with
    | .fail => ([⟨target, user_agent⟩], .error .Websocket)
    | .ok frames => ([⟨target, user_agent⟩], .ok { closed := true, incoming := frames })

/-- The Stream impl for Gateway (client/gateway.rs lines 124-142): if the
closed flag is set, yield None at once; otherwise map the next websocket
item: binary frames to UnexpectedBinaryMessage, text frames through
serde_json (failure is a Serialization error), stream errors to the
Websocket error, end of stream (peer close) to None. -/
def Gateway.poll_next (g : Gateway) : Option (Except Error GatewayEvent) × Gateway :=
  if g.closed then
    (none, g)
  else
    match g.incoming with
    | [] => (none, g)
    | f :: rest =>
        let item : Except Error GatewayEvent :=
          match f with
          | .binary => .error .UnexpectedBinaryMessage
          | .text j =>
              match decodeGatewayEvent j with
              | some ev => .ok ev
              | none => .error .Serialization
          | .malformed => .error .Serialization
          | .wsError => .error .Websocket
        (some item, { g with incoming := rest })

/-- Gateway::identify (client/gateway.rs lines 82-92): send
Identify{token}, then await exactly one item from the stream and match it.
Returns the messages written to the socket, the result, and the channel
state afterwards. -/
def Gateway.identify (g : Gateway) (token : String) :
    List ClientGatewayMessage × Except Error (String × User) × Gateway :=
  let sent := [ClientGatewayMessage.Identify token]
  match g.poll_next with
  | (some (.ok (.Ready session_id user)), g1) => (sent, .ok (session_id, user), g1)
  | (some (.ok (.Error reason)), g1) => (sent, .error (.GatewayError reason), g1)
  | (some (.ok ev), g1) => (sent, .error (.UnexpectedEvent ev), g1)
  | (some (.error e), g1) => (sent, .error e, g1)
  | (none, g1) => (sent, .error .UnexpectedSocketClose, g1)

/-!
Session supervisor (src/gateway.rs).  gateway_service is an infinite
loop; it is embedded as a step function on its state, consuming one
stimulus per suspension point, and a run function folding a stimulus
list.  Emissions record whether the source published them with an awaited
send (output.send(..).await) or a non-blocking try_send.
-/

/-- src/gateway.rs: struct Connection(mpsc::UnboundedSender<..>).  The
unbounded channel is modelled by its queue contents and whether the
receiving end is still alive. -/
structure Connection where
  alive : Bool
  queue : List ClientGatewayMessage
deriving DecidableEq

/-- Connection::send (src/gateway.rs lines 26-28):
unbounded_send(msg).is_ok().  unbounded_send enqueues and succeeds while
the receiver exists; it fails, leaving the message nowhere, once the
receiver has been dropped. -/
def Connection.send (c : Connection) (msg : ClientGatewayMessage) :
    Bool × Connection :=
  if c.alive then
    (true, { c with queue := c.queue ++ [msg] })
  else
    (false, c)

/-- src/gateway.rs: enum GatewayMessage, the supervisor's output
vocabulary. -/
inductive GatewayMessage where
  | Connected (conn : Connection) (user : User) (session_id : String)
  | ConnectionError (e : Error)
  | Disconnected
  | Event (ev : GatewayEvent)
deriving DecidableEq

/-- How the source publishes a given output message: output.send(..).await
(suspends until the channel has room, never discards) or
output.try_send(..) (non-blocking, discards the message when the channel
is full). -/
inductive EmitMode where
  | awaited
  | try_send
deriving DecidableEq

/-- One attempted publication on the output stream. -/
structure Emission where
  mode : EmitMode
  msg : GatewayMessage
deriving DecidableEq

/-- src/gateway.rs: enum GatewayState.  The connected payload (gateway,
receiver) lives in the environment oracle. -/
inductive GatewayState where
  | Disconnected
  | Connected
deriving DecidableEq

/-- Outcome of one dial attempt (connect then identify) as decided by the
network, relevant only when the URL itself is hierarchical. -/
inductive DialOutcome where
  | connect_err
  | identify_err (e : Error)
  | identify_ok (session_id : String) (user : User)

/-- One stimulus at a suspension point of gateway_service: the dial
outcome while Disconnected, or — while Connected — the select! winner:
gateway.next() resolving, or receiver.select_next_some() yielding a queued
command. -/
inductive Stimulus where
  | dial (o : DialOutcome)
  | pull (r : Option (Except Error GatewayEvent))
  | command (msg : ClientGatewayMessage)

/-- One iteration of the gateway_service loop (src/gateway.rs lines
41-102).  Returns the attempted publications, the next state, and the
messages forwarded to the gateway sink.  While Disconnected: connect
(which fails by itself with InvalidUrl on a cannot-be-a-base URL), then
identify; failures publish ConnectionError with an awaited send and stay
Disconnected; success publishes Connected (carrying a fresh Connection)
with an awaited send.  While Connected: Ok(ev) is republished as Event via
try_send, Err(e) as ConnectionError via try_send, both staying Connected;
None publishes Disconnected with an awaited send and returns to
Disconnected; a queued command is forwarded to the sink.  Stimuli that
cannot occur in the current state are no-ops. -/
def gateway_service_step (url : Url) (st : GatewayState) (s : Stimulus) :
    List Emission × GatewayState × List ClientGatewayMessage :=
  match st, s with
  | .Disconnected, .dial o =>
      if url.cannot_be_a_base then
        ([⟨.awaited, .ConnectionError (.InvalidUrl url)⟩], .Disconnected, [])
      else
        match o with
        | .connect_err =>
            ([⟨.awaited, .ConnectionError .Websocket⟩], .Disconnected, [])
        | .identify_err e =>
            ([⟨.awaited, .ConnectionError e⟩], .Disconnected, [])
        | .identify_ok session_id user =>
            ([⟨.awaited, .Connected ⟨true, []⟩ user session_id⟩], .Connected, [])
  | .Connected, .pull (some (.ok ev)) =>
      ([⟨.try_send, .Event ev⟩], .Connected, [])
  | .Connected, .pull (some (.error e)) =>
      ([⟨.try_send, .ConnectionError e⟩], .Connected, [])
  | .Connected, .pull none =>
      ([⟨.awaited, .Disconnected⟩], .Disconnected, [])
  | .Connected, .command msg =>
      ([], .Connected, [msg])
  | .Disconnected, .pull _ => ([], st, [])
  | .Disconnected, .command _ => ([], st, [])
  | .Connected, .dial _ => ([], st, [])

/-- Folding gateway_service_step over a stimulus list. -/
def gateway_service_run (url : Url) :
    GatewayState → List Stimulus →
    List Emission × GatewayState × List ClientGatewayMessage
  | st, [] => ([], st, [])
  | st, s :: rest =>
      let r1 := gateway_service_step url st s
      let r2 := gateway_service_run url r1.2.1 rest
      (r1.1 ++ r2.1, r2.2.1, r1.2.2 ++ r2.2.2)

/-- Whether a message reports the outcome of a dial attempt: either the
attempt failed (ConnectionError) or it succeeded (Connected). -/
def is_dial_report : GatewayMessage → Bool
  | .ConnectionError _ => true
  | .Connected _ _ _ => true
  | _ => false

/-- Semantics of the two publication modes on a bounded output channel of
the given capacity holding queue q: try_send drops the message when the
channel is full, an awaited send suspends until there is room and hence
always delivers. -/
def publish (capacity : Nat) (q : List GatewayMessage) (e : Emission) :
    List GatewayMessage :=
  match e.mode with
  | .awaited => q ++ [e.msg]
  | .try_send => if q.length < capacity then q ++ [e.msg] else q

/-!
Epoch discipline of the output stream, phrased as a two-phase automaton
over the published messages: before a Connected only ConnectionError
reports may appear; between a Connected and the Disconnected that ends its
epoch only Event and ConnectionError notifications may appear.
-/

/-- Phase of the output stream automaton. -/
inductive EpochPhase where
  | awaiting_connect
  | in_epoch
deriving DecidableEq

/-- One transition of the output stream automaton; none means the message
is not permitted in the current phase. -/
def epoch_phase_step : EpochPhase → GatewayMessage → Option EpochPhase
  | .awaiting_connect, .ConnectionError _ => some .awaiting_connect
  | .awaiting_connect, .Connected _ _ _ => some .in_epoch
  | .awaiting_connect, _ => none
  | .in_epoch, .Event _ => some .in_epoch
  | .in_epoch, .ConnectionError _ => some .in_epoch
  | .in_epoch, .Disconnected => some .awaiting_connect
  | .in_epoch, .Connected _ _ _ => none

/-- Running the output stream automaton over a message list. -/
def epoch_accepts : EpochPhase → List GatewayMessage → Option EpochPhase
  | p, [] => some p
  | p, m :: ms =>
      match epoch_phase_step p m with
      | some p1 => epoch_accepts p1 ms
      | none => none

/-- The phase the automaton should be in for a given supervisor state. -/
def phase_of : GatewayState → EpochPhase
  | .Disconnected => .awaiting_connect
  | .Connected => .in_epoch

end Eyeqwst

namespace Eyeqwst

/-- Splitting a run at an append of stimulus lists. -/
theorem gateway_service_run_append (url : Url) (st : GatewayState)
    (xs ys : List Stimulus) :
    gateway_service_run url st (xs ++ ys) =
      ((gateway_service_run url st xs).1 ++
         (gateway_service_run url (gateway_service_run url st xs).2.1 ys).1,
       (gateway_service_run url (gateway_service_run url st xs).2.1 ys).2.1,
       (gateway_service_run url st xs).2.2 ++
         (gateway_service_run url (gateway_service_run url st xs).2.1 ys).2.2) := by
  induction xs generalizing st with
  | nil => simp [gateway_service_run]
  | cons x xs ih => simp [gateway_service_run, ih]

/-- Splitting the output stream automaton at an append. -/
theorem epoch_accepts_append (p : EpochPhase) (xs ys : List GatewayMessage) :
    epoch_accepts p (xs ++ ys) =
      match epoch_accepts p xs with
      | some q => epoch_accepts q ys
      | none => none := by
  induction xs generalizing p with
  | nil => simp [epoch_accepts]
  | cons x xs ih =>
      simp [epoch_accepts]
      cases epoch_phase_step p x <;> simp [ih]

/-- Every single supervisor step publishes a message list the output
stream automaton accepts, ending in the phase of the successor state. -/
theorem step_epoch (url : Url) (st : GatewayState) (s : Stimulus) :
    epoch_accepts (phase_of st)
        ((gateway_service_step url st s).1.map Emission.msg) =
      some (phase_of (gateway_service_step url st s).2.1) := by
  cases st with
  | Disconnected =>
      cases s with
      | dial o =>
          by_cases h : url.cannot_be_a_base <;>
            cases o <;>
              simp [gateway_service_step, h, epoch_accepts, epoch_phase_step,
                    phase_of]
      | pull r => simp [gateway_service_step, epoch_accepts, phase_of]
      | command m => simp [gateway_service_step, epoch_accepts, phase_of]
  | Connected =>
      cases s with
      | dial o => simp [gateway_service_step, epoch_accepts, phase_of]
      | pull r =>
          rcases r with _ | (e | ev) <;>
            simp [gateway_service_step, epoch_accepts, epoch_phase_step,
                  phase_of]
      | command m => simp [gateway_service_step, epoch_accepts, phase_of]

/-- Every supervisor run publishes a message sequence the output stream
automaton accepts, ending in the phase of the final state. -/
theorem run_epoch (url : Url) (st : GatewayState) (ss : List Stimulus) :
    epoch_accepts (phase_of st)
        ((gateway_service_run url st ss).1.map Emission.msg) =
      some (phase_of (gateway_service_run url st ss).2.1) := by
  induction ss generalizing st with
  | nil => simp [gateway_service_run, epoch_accepts]
  | cons s rest ih =>
      have hs := step_epoch url st s
      simp only [gateway_service_run, List.map_append, epoch_accepts_append, hs]
      exact ih (gateway_service_step url st s).2.1

/-- Claim C7: for every variant of the closed outgoing set
(Identify, Subscribe) and of the closed incoming set (Ready, Error,
MessageCreate), decoding the encoded frame yields an equal value. -/
theorem codec_round_trip :
    (∀ m : ClientGatewayMessage,
        decodeClientGatewayMessage (encodeClientGatewayMessage m) = some m) ∧
    (∀ ev : GatewayEvent,
        decodeGatewayEvent (encodeGatewayEvent ev) = some ev) := by
  constructor
  · intro m
    cases m <;>
      simp [decodeClientGatewayMessage, encodeClientGatewayMessage, jLookup]
  · intro ev
    cases ev <;>
      simp [decodeGatewayEvent, encodeGatewayEvent, decodeUser, decodeMessage,
            encodeUser, encodeMessage, jLookup]

/-- Claim C9: Identify{token} encodes to the object with op "identify" and
the token string; Subscribe{channel_id} encodes with op "subscribe" and
the channel id as a bare u64 number; incoming frames decode by the "event"
discriminator with snake_case tags ready, error and message_create and the
variant-specific fields session_id/user, reason and message. -/
theorem wire_format_shapes :
    (∀ token : String,
        encodeClientGatewayMessage (.Identify token) =
          .obj [("op", .str "identify"), ("token", .str token)]) ∧
    (∀ channel_id : ChannelId,
        encodeClientGatewayMessage (.Subscribe channel_id) =
          .obj [("op", .str "subscribe"), ("channel_id", .num channel_id.val)]) ∧
    (∀ (sid : String) (i : Nat) (n : String),
        decodeGatewayEvent
            (.obj [("event", .str "ready"), ("session_id", .str sid),
                   ("user", .obj [("id", .num i), ("name", .str n)])]) =
          some (.Ready sid ⟨⟨i⟩, n⟩)) ∧
    (∀ reason : String,
        decodeGatewayEvent (.obj [("event", .str "error"),
                                  ("reason", .str reason)]) =
          some (.Error reason)) ∧
    (∀ message : Message,
        decodeGatewayEvent (.obj [("event", .str "message_create"),
                                  ("message", encodeMessage message)]) =
          some (.MessageCreate message)) := by
  refine ⟨fun token => rfl, fun channel_id => rfl, fun sid i n => ?_,
          fun reason => ?_, fun message => ?_⟩
  · simp [decodeGatewayEvent, decodeUser, jLookup]
  · simp [decodeGatewayEvent, jLookup]
  · simp [decodeGatewayEvent, decodeMessage, decodeUser, encodeMessage,
          encodeUser, jLookup]

/-- Claim C1 (code bug): Gateway::connect constructs the channel with
closed = true (gateway.rs line 78) and nothing ever clears the flag, so on
a freshly connected channel whose socket holds a Ready frame, identify
sends Identify{token} but then — because the Stream impl returns None
immediately when closed is set — fails with UnexpectedSocketClose instead
of returning (session_id, user) as the claim requires. -/
theorem identify_closed_flag_bug :
    (Gateway.connect ⟨false, []⟩ "eyeqwst/v0.1.0"
        (.ok [WsIncoming.text
          (encodeGatewayEvent (.Ready "s1" ⟨⟨1⟩, "alice"⟩))])).2 =
      .ok { closed := true,
            incoming := [WsIncoming.text
              (encodeGatewayEvent (.Ready "s1" ⟨⟨1⟩, "alice"⟩))] } ∧
    Gateway.identify
        { closed := true,
          incoming := [WsIncoming.text
            (encodeGatewayEvent (.Ready "s1" ⟨⟨1⟩, "alice"⟩))] } "tok" =
      ([ClientGatewayMessage.Identify "tok"],
       .error .UnexpectedSocketClose,
       { closed := true,
         incoming := [WsIncoming.text
           (encodeGatewayEvent (.Ready "s1" ⟨⟨1⟩, "alice"⟩))] }) :=
  ⟨rfl, rfl⟩

/-- Claim C2 (code bug): a channel fresh from Gateway::connect has
closed = true, so poll_next yields None at once even though the peer has
not closed the socket and a binary frame is pending — the claim requires
Some(Err(UnexpectedBinaryMessage)) there and None only at peer close. -/
theorem poll_next_closed_flag_bug :
    (Gateway.connect ⟨false, []⟩ "eyeqwst/v0.1.0" (.ok [WsIncoming.binary])).2 =
      .ok { closed := true, incoming := [WsIncoming.binary] } ∧
    Gateway.poll_next { closed := true, incoming := [WsIncoming.binary] } =
      (none, { closed := true, incoming := [WsIncoming.binary] }) :=
  ⟨rfl, rfl⟩

/-- Claim C3 counterexample: while Connected, pulling a transport-level
error (an underlying websocket error, not a decode error) publishes
ConnectionError via try_send and leaves the supervisor in Connected — it
does not force a transition back to Disconnected as the claim states. -/
theorem transport_error_keeps_pumping :
    gateway_service_step ⟨false, []⟩ .Connected
        (.pull (some (.error .Websocket))) =
      ([⟨.try_send, .ConnectionError .Websocket⟩], .Connected, []) ∧
    GatewayState.Connected ≠ GatewayState.Disconnected :=
  ⟨rfl, by decide⟩

/-- Claim C3 as amended: whenever a run of the supervisor has reached
Connected, pulling Ok(event) publishes Event(event) and pumping continues
in Connected; pulling any Err(e) — decode or transport alike — publishes
it as a ConnectionError notification and pumping continues in Connected;
the transition back to Disconnected happens exactly on end of stream
(None), which publishes Disconnected. -/
theorem connected_pump_behavior (url : Url) (pre : List Stimulus)
    (h : (gateway_service_run url .Disconnected pre).2.1 = .Connected)
    (ev : GatewayEvent) (e : Error) :
    gateway_service_run url .Disconnected (pre ++ [.pull (some (.ok ev))]) =
      ((gateway_service_run url .Disconnected pre).1 ++
         [⟨.try_send, .Event ev⟩], .Connected,
       (gateway_service_run url .Disconnected pre).2.2) ∧
    gateway_service_run url .Disconnected (pre ++ [.pull (some (.error e))]) =
      ((gateway_service_run url .Disconnected pre).1 ++
         [⟨.try_send, .ConnectionError e⟩], .Connected,
       (gateway_service_run url .Disconnected pre).2.2) ∧
    gateway_service_run url .Disconnected (pre ++ [.pull none]) =
      ((gateway_service_run url .Disconnected pre).1 ++
         [⟨.awaited, .Disconnected⟩], .Disconnected,
       (gateway_service_run url .Disconnected pre).2.2) := by
  refine ⟨?_, ?_, ?_⟩ <;>
    rw [gateway_service_run_append, h] <;>
      simp [gateway_service_run, gateway_service_step]

/-- Witness for connected_pump_behavior at a concrete run: one successful
dial reaches Connected, and a subsequent peer close appends exactly one
Disconnected. -/
theorem connected_pump_behavior_witness :
    gateway_service_run ⟨false, []⟩ .Disconnected
        ([.dial (.identify_ok "s1" ⟨⟨1⟩, "alice"⟩)] ++ [.pull none]) =
      ((gateway_service_run ⟨false, []⟩ .Disconnected
          [.dial (.identify_ok "s1" ⟨⟨1⟩, "alice"⟩)]).1 ++
         [⟨.awaited, .Disconnected⟩], .Disconnected,
       (gateway_service_run ⟨false, []⟩ .Disconnected
          [.dial (.identify_ok "s1" ⟨⟨1⟩, "alice"⟩)]).2.2) :=
  (connected_pump_behavior ⟨false, []⟩
      [.dial (.identify_ok "s1" ⟨⟨1⟩, "alice"⟩)] rfl
      (.Error "x") .Websocket).2.2

/-- Claim C4: every output sequence of the supervisor respects the epoch
discipline — from the initial phase, ConnectionError reports may precede a
single Connected, after which only Event and ConnectionError notifications
appear until the single Disconnected that ends the epoch, whereupon the
cycle repeats (first conjunct, via the stream automaton whose final phase
matches the supervisor state); moreover a peer close while Connected
publishes exactly one Disconnected and returns to Disconnected (second
conjunct), from where the next dial attempt publishes exactly one dial
report, a ConnectionError or a Connected (third conjunct). -/
theorem output_stream_epoch_discipline :
    (∀ (url : Url) (ss : List Stimulus),
        epoch_accepts .awaiting_connect
            ((gateway_service_run url .Disconnected ss).1.map Emission.msg) =
          some (phase_of (gateway_service_run url .Disconnected ss).2.1)) ∧
    (∀ url : Url,
        gateway_service_step url .Connected (.pull none) =
          ([⟨.awaited, .Disconnected⟩], .Disconnected, [])) ∧
    (∀ (url : Url) (o : DialOutcome),
        ((gateway_service_step url .Disconnected (.dial o)).1.map
            fun em => is_dial_report em.msg) = [true]) := by
  refine ⟨fun url ss => run_epoch url .Disconnected ss, fun url => rfl,
          fun url o => ?_⟩
  by_cases h : url.cannot_be_a_base <;>
    cases o <;> simp [gateway_service_step, h, is_dial_report]

/-- Claim C5 counterexample: started on a cannot-be-a-base endpoint, two
successive loop iterations each publish ConnectionError(InvalidUrl) and
each re-attempt the dial — the bad-endpoint error is neither surfaced only
once nor fatal. -/
theorem invalid_url_retried :
    gateway_service_run ⟨true, []⟩ .Disconnected
        [.dial .connect_err, .dial .connect_err] =
      ([⟨.awaited, .ConnectionError (.InvalidUrl ⟨true, []⟩)⟩,
        ⟨.awaited, .ConnectionError (.InvalidUrl ⟨true, []⟩)⟩],
       .Disconnected, []) :=
  rfl

/-- Claim C5 as amended: a bad endpoint is not fatal — on a
cannot-be-a-base URL every dial attempt publishes
ConnectionError(InvalidUrl) with an awaited send and the supervisor stays
in Disconnected, retrying the dial indefinitely exactly as it does for
transport errors. -/
theorem invalid_url_retry_forever (url : Url)
    (h : url.cannot_be_a_base = true) (os : List DialOutcome) :
    gateway_service_run url .Disconnected (os.map .dial) =
      (os.map fun _ => ⟨.awaited, .ConnectionError (.InvalidUrl url)⟩,
       .Disconnected, []) := by
  induction os with
  | nil => rfl
  | cons o os ih => simp [gateway_service_run, gateway_service_step, h, ih]

/-- Witness for invalid_url_retry_forever on a concrete bad URL and three
dial attempts. -/
theorem invalid_url_retry_forever_witness :
    gateway_service_run ⟨true, ["a"]⟩ .Disconnected
        ([DialOutcome.connect_err, .identify_err .Websocket,
          .identify_ok "s" ⟨⟨2⟩, "bob"⟩].map .dial) =
      ([DialOutcome.connect_err, .identify_err .Websocket,
          .identify_ok "s" ⟨⟨2⟩, "bob"⟩].map fun _ =>
         ⟨.awaited, .ConnectionError (.InvalidUrl ⟨true, ["a"]⟩)⟩,
       .Disconnected, []) :=
  invalid_url_retry_forever ⟨true, ["a"]⟩ rfl
    [DialOutcome.connect_err, .identify_err .Websocket,
     .identify_ok "s" ⟨⟨2⟩, "bob"⟩]

/-- Claim C6: Connection::send on a torn-down Connection (receiver
dropped) returns false and leaves the queue untouched, so the message
never reaches the wire; on a live Connection it enqueues the message and
returns true.  The operation is a total function — it neither blocks nor
panics. -/
theorem connection_send_contract (c : Connection)
    (msg : ClientGatewayMessage) :
    (c.alive = false → Connection.send c msg = (false, c)) ∧
    (c.alive = true →
        Connection.send c msg = (true, { c with queue := c.queue ++ [msg] })) := by
  constructor <;> intro h <;> simp [Connection.send, h]

/-- Witness for connection_send_contract on a dead and on a live
Connection. -/
theorem connection_send_contract_witness :
    Connection.send ⟨false, []⟩ (.Identify "t") = (false, ⟨false, []⟩) ∧
    Connection.send ⟨true, []⟩ (.Subscribe ⟨7⟩) =
      (true, ⟨true, [.Subscribe ⟨7⟩]⟩) :=
  ⟨(connection_send_contract ⟨false, []⟩ (.Identify "t")).1 rfl,
   (connection_send_contract ⟨true, []⟩ (.Subscribe ⟨7⟩)).2 rfl⟩

/-- Claim C8: on a hierarchical endpoint, connect issues exactly one
upgrade request, against the endpoint with the fixed segment "app"
appended and carrying the given user-agent header; on a cannot-be-a-base
endpoint it fails with InvalidUrl and issues no request at all. -/
theorem connect_upgrade_request (url : Url) (ua : String)
    (net : NetOutcome) :
    (url.cannot_be_a_base = false →
        (Gateway.connect url ua net).1 = [⟨url.push "app", ua⟩]) ∧
    (url.cannot_be_a_base = true →
        Gateway.connect url ua net = ([], .error (.InvalidUrl url))) := by
  constructor <;> intro h <;> cases net <;> simp [Gateway.connect, h]

/-- Witness for connect_upgrade_request on a concrete hierarchical URL and
a concrete cannot-be-a-base URL. -/
theorem connect_upgrade_request_witness :
    (Gateway.connect ⟨false, ["x"]⟩ "eyeqwst/v0.1.0" .fail).1 =
      [⟨Url.push ⟨false, ["x"]⟩ "app", "eyeqwst/v0.1.0"⟩] ∧
    Gateway.connect ⟨true, []⟩ "eyeqwst/v0.1.0" (.ok []) =
      ([], .error (.InvalidUrl ⟨true, []⟩)) :=
  ⟨(connect_upgrade_request ⟨false, ["x"]⟩ "eyeqwst/v0.1.0" .fail).1 rfl,
   (connect_upgrade_request ⟨true, []⟩ "eyeqwst/v0.1.0" (.ok [])).2 rfl⟩

/-- Claim C10: while Connected the supervisor publishes Event and error
notifications via try_send, and the Connected and Disconnected lifecycle
events via an awaited send; a try_send publication on a full output
channel is silently discarded while an awaited publication is appended
regardless, and below capacity try_send also delivers. -/
theorem publish_modes :
    (∀ (url : Url) (ev : GatewayEvent),
        gateway_service_step url .Connected (.pull (some (.ok ev))) =
          ([⟨.try_send, .Event ev⟩], .Connected, [])) ∧
    (∀ (url : Url) (e : Error),
        gateway_service_step url .Connected (.pull (some (.error e))) =
          ([⟨.try_send, .ConnectionError e⟩], .Connected, [])) ∧
    (∀ url : Url,
        gateway_service_step url .Connected (.pull none) =
          ([⟨.awaited, .Disconnected⟩], .Disconnected, [])) ∧
    (∀ (url : Url) (sid : String) (u : User),
        url.cannot_be_a_base = false →
          gateway_service_step url .Disconnected (.dial (.identify_ok sid u)) =
            ([⟨.awaited, .Connected ⟨true, []⟩ u sid⟩], .Connected, [])) ∧
    (∀ (cap : Nat) (q : List GatewayMessage) (m : GatewayMessage),
        cap ≤ q.length →
          publish cap q ⟨.try_send, m⟩ = q ∧
          publish cap q ⟨.awaited, m⟩ = q ++ [m]) ∧
    (∀ (cap : Nat) (q : List GatewayMessage) (m : GatewayMessage),
        q.length < cap → publish cap q ⟨.try_send, m⟩ = q ++ [m]) := by
  refine ⟨fun url ev => rfl, fun url e => rfl, fun url => rfl,
          fun url sid u h => ?_, fun cap q m h => ?_, fun cap q m h => ?_⟩
  · simp [gateway_service_step, h]
  · exact ⟨by simp [publish, Nat.not_lt.mpr h], rfl⟩
  · simp [publish, h]

/-- Witness for publish_modes: the Connected publication at a concrete
good URL, and both publication modes on a concrete full channel
(capacity 1 holding one message) and a concrete non-full channel. -/
theorem publish_modes_witness :
    gateway_service_step ⟨false, []⟩ .Disconnected
        (.dial (.identify_ok "s1" ⟨⟨1⟩, "alice"⟩)) =
      ([⟨.awaited, .Connected ⟨true, []⟩ ⟨⟨1⟩, "alice"⟩ "s1"⟩],
       .Connected, []) ∧
    (publish 1 [GatewayMessage.Disconnected] ⟨.try_send, .Disconnected⟩ =
       [GatewayMessage.Disconnected] ∧
     publish 1 [GatewayMessage.Disconnected] ⟨.awaited, .Disconnected⟩ =
       [GatewayMessage.Disconnected, GatewayMessage.Disconnected]) ∧
    publish 1 [] ⟨.try_send, GatewayMessage.Disconnected⟩ =
      [GatewayMessage.Disconnected] :=
  ⟨publish_modes.2.2.2.1 ⟨false, []⟩ "s1" ⟨⟨1⟩, "alice"⟩ rfl,
   publish_modes.2.2.2.2.1 1 [GatewayMessage.Disconnected]
     GatewayMessage.Disconnected (Nat.le_refl 1),
   publish_modes.2.2.2.2.2 1 [] GatewayMessage.Disconnected
     (Nat.lt_of_sub_eq_succ rfl)⟩

end Eyeqwst
